import Mathlib

/-!
Verification of the browser-agent tool layer of `robo-ride-signup`
(`src/agent.py`, `src/logger.py`).

The Python source is shallowly embedded: each tool body is a pure Lean
function; the outcome of every awaited Playwright call is an explicit
oracle of type `Except String α` (`.error e` models a raised exception
with message `str(e) = e`); a tool returning `.error m` models the tool
itself raising an exception to its caller, while `.ok s` models a normal
return of the text `s`.  String algorithms are modelled on `List Char`
(ASCII), since the source only manipulates ASCII selectors and messages.
-/

/-- A single-quote character, used in the Python f-string error messages. -/
def qm : String := "\x27"

/-- The chars `n` occur contiguously inside `l`, modelling Python `n in l`. -/
def listContains (l n : List Char) : Bool :=
  (List.range (l.length + 1)).any (fun i => n.isPrefixOf (l.drop i))

/-- ASCII lowercase of a char list, modelling Python `str.lower()` for ASCII. -/
def lowerList (l : List Char) : List Char :=
  l.map Char.toLower

/-- Strip leading and trailing whitespace, modelling Python `str.strip()`
(as invoked implicitly by `int()`) for ASCII whitespace. -/
def stripWs (l : List Char) : List Char :=
  ((l.dropWhile Char.isWhitespace).reverse.dropWhile Char.isWhitespace).reverse

/-- After one digit has been read: the rest must match `(_? digit)*`,
underscores only between digits (Python numeric-literal rule). -/
def digitsTail : List Char → Bool
  | [] => true
  | c :: rest =>
    if c.isDigit then digitsTail rest
    else if c = '_' then
      match rest with
      | [] => false
      | d :: rest2 => d.isDigit && digitsTail rest2
    else false

/-- A nonempty digit run with single underscores between digits. -/
def digitsRun : List Char → Bool
  | [] => false
  | c :: rest => c.isDigit && digitsTail rest

/-- Numeric value of a digit list (underscores already removed). -/
def natOfDigits (cs : List Char) : Nat :=
  cs.foldl (fun n c => 10 * n + (c.toNat - 48)) 0

/-- Models Python `int(s)` on ASCII input: optional surrounding whitespace,
optional sign, then decimal digits with single underscores between digits;
`none` models a raised `ValueError`. -/
def pyParseInt (s : String) : Option Int :=
  let cs := stripWs s.toList
  match cs with
  | '+' :: rest =>
    if digitsRun rest then some (natOfDigits (rest.filter (fun c => c ≠ '_')) : Nat) else none
  | '-' :: rest =>
    if digitsRun rest then some (-(natOfDigits (rest.filter (fun c => c ≠ '_')) : Nat)) else none
  | _ =>
    if digitsRun cs then some (natOfDigits (cs.filter (fun c => c ≠ '_')) : Nat) else none

/-- A frame of the page: `frame.name` and `frame.url` (empty string models
Python falsy `""`/missing values, as in the `(no name)` handling of `agent.py`). -/
structure Frame where
  name : String
  url : String
  deriving DecidableEq, Repr

/-- The per-frame match test of the name/URL scan in
`browser_get_frame_content` / `browser_fill_in_frame` / `browser_click_in_frame`:
`(frame.name and sel.lower() in frame.name.lower()) or (frame.url and sel.lower() in frame.url.lower())`. -/
def frameMatches (sel : String) (f : Frame) : Bool :=
  (f.name != "" && listContains (lowerList f.name.toList) (lowerList sel.toList)) ||
  (f.url != "" && listContains (lowerList f.url.toList) (lowerList sel.toList))

/-- The frame-resolution logic shared by the three frame-scoped tools in
`agent.py`: try `int(frame_selector)` and bounds-check it; otherwise scan
frames in order for a case-insensitive name/URL substring match. -/
def resolveFrame (frameSelector : String) (frames : List Frame) : Option Frame :=
  let byIndex : Option Frame :=
    match pyParseInt frameSelector with
    | some i => if 0 ≤ i ∧ i < (frames.length : Int) then frames[i.toNat]? else none
    | none => none
  match byIndex with
  | some f => some f
  | none => frames.find? (frameMatches frameSelector)

/-- The page state a tool acts on: current URL, current frame list, and the
index of the main frame (object identity `frame == page.main_frame` is
modelled by index equality). -/
structure Page where
  url : String
  frames : List Frame
  mainFrame : Nat
  deriving DecidableEq, Repr

/-- The `RuntimeError` message `_get_page` raises when the module-level
`_page` is `None`. -/
def initErrMsg : String := "Browser not initialized. Call this tool only after browser is ready."

/-- `_get_page`: returns the page, or raises when it is not initialized. -/
def getPage (page? : Option Page) : Except String Page :=
  match page? with
  | none => .error initErrMsg
  | some p => .ok p

/-- `logger.get_screenshot_path`: `<current screenshot dir>/<step_name>.png`. -/
def get_screenshot_path (dir : String) (stepName : String) : String :=
  dir ++ "/" ++ (stepName ++ ".png")

/-- `browser_navigate`.  `goto` is the outcome of `page.goto`: on success it
carries the page after navigation (whose `url` the message reports). -/
def browser_navigate (page? : Option Page) (url : String)
    (goto : Except String Page) : Except String String := do
  let _ ← getPage page?
  match goto with
  | .ok p => .ok ("Successfully navigated to " ++ p.url)
  | .error e => .ok ("Failed to navigate to " ++ qm ++ url ++ qm ++ ": " ++ e)

/-- `browser_click`.  `act` collapses the awaited wait/scroll/click calls:
`.error e` models the first of them raising with message `e`. -/
def browser_click (page? : Option Page) (elementSelector : String)
    (act : Except String Unit) : Except String String := do
  let _ ← getPage page?
  match act with
  | .ok _ => .ok ("Successfully clicked element: " ++ elementSelector)
  | .error e => .ok ("Failed to click element " ++ qm ++ elementSelector ++ qm ++ ": " ++ e)

/-- `browser_fill`. -/
def browser_fill (page? : Option Page) (elementSelector : String) (text : String)
    (act : Except String Unit) : Except String String := do
  let _ ← getPage page?
  match act with
  | .ok _ => .ok ("Successfully filled element: " ++ elementSelector)
  | .error e => .ok ("Failed to fill element " ++ qm ++ elementSelector ++ qm ++ ": " ++ e)

/-- `browser_type`. -/
def browser_type (page? : Option Page) (elementSelector : String) (text : String)
    (act : Except String Unit) : Except String String := do
  let _ ← getPage page?
  match act with
  | .ok _ => .ok ("Successfully typed into element: " ++ elementSelector)
  | .error e => .ok ("Failed to type into element " ++ qm ++ elementSelector ++ qm ++ ": " ++ e)

/-- `browser_press_key`. -/
def browser_press_key (page? : Option Page) (key : String)
    (act : Except String Unit) : Except String String := do
  let _ ← getPage page?
  match act with
  | .ok _ => .ok ("Successfully pressed key: " ++ key)
  | .error e => .ok ("Failed to press key " ++ qm ++ key ++ qm ++ ": " ++ e)

/-- `browser_screenshot`.  `dir` is the current run screenshot directory;
`act` is the outcome of `page.screenshot`. -/
def browser_screenshot (page? : Option Page) (name : String) (dir : String)
    (act : Except String Unit) : Except String String := do
  let _ ← getPage page?
  match act with
  | .ok _ => .ok ("Screenshot saved to " ++ get_screenshot_path dir name)
  | .error e => .ok ("Failed to take screenshot " ++ qm ++ name ++ qm ++ ": " ++ e)

/-- `browser_get_content`.  `act` is the outcome of `page.content()`; the
result is truncated to the first 5000 characters. -/
def browser_get_content (page? : Option Page)
    (act : Except String String) : Except String String := do
  let _ ← getPage page?
  match act with
  | .ok content => .ok (content.take 5000)
  | .error e => .ok ("Failed to get page content: " ++ e)

/-- `browser_get_text`.  `act` is the outcome of `page.text_content` (which
may return `None`, modelled as `none`); Python `text or ""`. -/
def browser_get_text (page? : Option Page) (elementSelector : String)
    (act : Except String (Option String)) : Except String String := do
  let _ ← getPage page?
  match act with
  | .ok t => .ok (t.getD "")
  | .error e => .ok ("Failed to get text from element " ++ qm ++ elementSelector ++ qm ++ ": " ++ e)

/-- `browser_wait_for_selector`. -/
def browser_wait_for_selector (page? : Option Page) (elementSelector : String)
    (timeoutMs : Int) (act : Except String Unit) : Except String String := do
  let _ ← getPage page?
  match act with
  | .ok _ => .ok ("Element appeared: " ++ elementSelector)
  | .error e => .ok ("Failed to find element " ++ qm ++ elementSelector ++ qm ++ " within " ++
      toString timeoutMs ++ "ms: " ++ e)

/-- `browser_wait`: the only tool that never touches the page; the sleep
itself is an external effect, only the returned text is modelled. -/
def browser_wait (seconds : Int) : Except String String :=
  if seconds < 1 ∨ seconds > 10 then
    .ok "Error: seconds must be between 1 and 10"
  else
    .ok ("Waited " ++ toString seconds ++ " seconds")

/-- `browser_is_visible`.  `act` is the outcome of `page.is_visible`; any
exception is converted to the result `"false"`. -/
def browser_is_visible (page? : Option Page) (elementSelector : String)
    (act : Except String Bool) : Except String String := do
  let _ ← getPage page?
  match act with
  | .ok b => .ok (if b then "true" else "false")
  | .error _ => .ok "false"

/-- `browser_evaluate`.  `act` is the outcome of `page.evaluate`, already
stringified (`str(result)`). -/
def browser_evaluate (page? : Option Page) (script : String)
    (act : Except String String) : Except String String := do
  let _ ← getPage page?
  match act with
  | .ok r => .ok r
  | .error e => .ok ("Failed to evaluate JavaScript: " ++ e)

/-- One line of `browser_list_frames` output for frame `i`. -/
def frameLine (mainIdx i : Nat) (f : Frame) : String :=
  "Frame " ++ toString i ++ ": name=" ++ qm ++
    (if f.name = "" then "(no name)" else f.name) ++ qm ++ ", url=" ++ qm ++
    (if f.url = "" then "(no URL)" else f.url) ++ qm ++
    (if i = mainIdx then " [MAIN FRAME]" else "")

/-- `browser_list_frames` (its body performs no awaited page action after
reading `page.frames`, so no failure oracle is needed). -/
def browser_list_frames (page? : Option Page) : Except String String := do
  let p ← getPage page?
  if p.frames.isEmpty then
    .ok "No frames found"
  else
    .ok (String.intercalate "\n" (p.frames.enum.map (fun x => frameLine p.mainFrame x.1 x.2)))

/-- The `Frame not found` text the three frame-scoped tools return when
resolution fails. -/
def frameNotFoundMsg (frameSelector : String) : String :=
  "Frame not found: " ++ qm ++ frameSelector ++ qm ++
    ". Use browser_list_frames to see available frames."

/-- `browser_get_frame_content`.  `getContent` is the outcome of
`target_frame.content()` on the resolved frame. -/
def browser_get_frame_content (page? : Option Page) (frameSelector : String)
    (getContent : Frame → Except String String) : Except String String := do
  let p ← getPage page?
  match resolveFrame frameSelector p.frames with
  | none => .ok (frameNotFoundMsg frameSelector)
  | some fr =>
    match getContent fr with
    | .ok c => .ok (c.take 5000)
    | .error e => .ok ("Failed to get frame content " ++ qm ++ frameSelector ++ qm ++ ": " ++ e)

/-- `browser_fill_in_frame`.  `act` is the outcome of `target_frame.fill`. -/
def browser_fill_in_frame (page? : Option Page) (frameSelector : String)
    (elementSelector : String) (text : String)
    (act : Frame → Except String Unit) : Except String String := do
  let p ← getPage page?
  match resolveFrame frameSelector p.frames with
  | none => .ok (frameNotFoundMsg frameSelector)
  | some fr =>
    match act fr with
    | .ok _ => .ok ("Successfully filled element " ++ qm ++ elementSelector ++ qm ++
        " in frame " ++ qm ++ frameSelector ++ qm)
    | .error e => .ok ("Failed to fill element " ++ qm ++ elementSelector ++ qm ++
        " in frame " ++ qm ++ frameSelector ++ qm ++ ": " ++ e)

/-- `browser_click_in_frame`.  `act` is the outcome of `target_frame.click`. -/
def browser_click_in_frame (page? : Option Page) (frameSelector : String)
    (elementSelector : String)
    (act : Frame → Except String Unit) : Except String String := do
  let p ← getPage page?
  match resolveFrame frameSelector p.frames with
  | none => .ok (frameNotFoundMsg frameSelector)
  | some fr =>
    match act fr with
    | .ok _ => .ok ("Successfully clicked element " ++ qm ++ elementSelector ++ qm ++
        " in frame " ++ qm ++ frameSelector ++ qm)
    | .error e => .ok ("Failed to click element " ++ qm ++ elementSelector ++ qm ++
        " in frame " ++ qm ++ frameSelector ++ qm ++ ": " ++ e)

/-- Outcomes of the fallible calls inside `cleanup_stale_playwright_processes`:
whether each `subprocess.run` raises, and for each of the three lock
directories whether it exists and whether the `find -delete` call raises. -/
structure CleanupOracle where
  pkillChromeFail : Bool
  pkillChromiumFail : Bool
  pkillNodeFail : Bool
  dir1Exists : Bool
  dir1FindFail : Bool
  dir2Exists : Bool
  dir2FindFail : Bool
  dir3Exists : Bool
  dir3FindFail : Bool
  deriving DecidableEq, Repr

/-- A `subprocess.run` call: raises (with a message) or succeeds. -/
def runCmd (failFlag : Bool) (cmd : String) : Except String Unit :=
  if failFlag then .error (cmd ++ " raised") else .ok ()

/-- A Python `try: body except: handler` where the handler only logs:
the raised message is absorbed. -/
def tryLogged (body : Except String (List String)) (onErr : String → List String) :
    List String :=
  match body with
  | .ok t => t
  | .error e => onErr e

/-- One iteration of the lock-dir loop: `if os.path.exists(dir): try: find
-delete except: log warning`. -/
def cleanDir (dirExists findFail : Bool) (dirName : String) : List String :=
  if dirExists then
    tryLogged
      (do
        let _ ← runCmd findFail ("find " ++ dirName)
        .ok ["Cleaned lock files from " ++ dirName])
      (fun e => ["Error cleaning " ++ dirName ++ ": " ++ e])
  else []

/-- `cleanup_stale_playwright_processes`: each fallible call sits inside a
`try`/`except` whose handler only logs, so the function can only return
normally; the result is the log trace.  The whole body is of `Except` type so
that an uncaught raise would surface as `.error`. -/
def cleanup_stale_playwright_processes (o : CleanupOracle) :
    Except String (List String) :=
  let killLog : List String :=
    tryLogged
      (do
        let _ ← runCmd o.pkillChromeFail "pkill chrome"
        let _ ← runCmd o.pkillChromiumFail "pkill chromium"
        let _ ← runCmd o.pkillNodeFail "pkill node"
        .ok ["Killed stale browser processes"])
      (fun e => ["Error killing processes: " ++ e])
  .ok (killLog ++
    cleanDir o.dir1Exists o.dir1FindFail "/root/.cache/ms-playwright" ++
    cleanDir o.dir2Exists o.dir2FindFail "/tmp/.ms-playwright" ++
    cleanDir o.dir3Exists o.dir3FindFail "~/.config/chromium")

/-- Observable events of one `run_agent` run, in execution order. -/
inductive Ev where
  | cleanupStale
  | startPW
  | launchBrowser
  | newContext
  | newPage
  | invokeAgent
  | releaseBegin
  | closePage
  | closeContext
  | closeBrowser
  | stopPW
  deriving DecidableEq, Repr

/-- Which awaited calls of `run_agent` raise: the four acquisition steps and
the agent invocation, and the four teardown steps in the `finally` block. -/
structure RunOracle where
  startFail : Bool
  launchFail : Bool
  contextFail : Bool
  pageFail : Bool
  agentFail : Bool
  closePageFail : Bool
  closeContextFail : Bool
  closeBrowserFail : Bool
  stopFail : Bool
  deriving DecidableEq, Repr

/-- Which handles (`playwright`, `_browser`, `_context`, `_page`) are
non-`None` when the `finally` block runs. -/
structure Handles where
  pw : Bool
  browser : Bool
  ctx : Bool
  page : Bool
  deriving DecidableEq, Repr

/-- The `try` body of `run_agent` up to and including `agent.ainvoke`:
events performed, handles acquired, and the exception (if any) that escapes
the body and will propagate after the `finally` block. -/
def acquirePhase (o : RunOracle) : List Ev × Handles × Option String :=
  if o.startFail then
    ([.startPW], ⟨false, false, false, false⟩, some "playwright start raised")
  else if o.launchFail then
    ([.startPW, .launchBrowser], ⟨true, false, false, false⟩, some "browser launch raised")
  else if o.contextFail then
    ([.startPW, .launchBrowser, .newContext], ⟨true, true, false, false⟩,
      some "new_context raised")
  else if o.pageFail then
    ([.startPW, .launchBrowser, .newContext, .newPage], ⟨true, true, true, false⟩,
      some "new_page raised")
  else if o.agentFail then
    ([.startPW, .launchBrowser, .newContext, .newPage, .invokeAgent],
      ⟨true, true, true, true⟩, some "agent error")
  else
    ([.startPW, .launchBrowser, .newContext, .newPage, .invokeAgent],
      ⟨true, true, true, true⟩, none)

/-- The teardown steps the `finally` block will attempt, in source order,
each guarded by its handle being non-`None`, paired with whether that call
raises. -/
def teardownSteps (h : Handles) (o : RunOracle) : List (Ev × Bool) :=
  (if h.page then [(Ev.closePage, o.closePageFail)] else []) ++
  (if h.ctx then [(Ev.closeContext, o.closeContextFail)] else []) ++
  (if h.browser then [(Ev.closeBrowser, o.closeBrowserFail)] else []) ++
  (if h.pw then [(Ev.stopPW, o.stopFail)] else [])

/-- Run a sequence of steps inside one `try`: the first raising step is the
last one attempted (its raise jumps to the single `except` handler, which
only logs), all later steps are skipped. -/
def runUntilRaise : List (Ev × Bool) → List Ev
  | [] => []
  | (e, failFlag) :: rest => if failFlag then [e] else e :: runUntilRaise rest

/-- The `finally` block of `run_agent`: one `try` around all four close
steps, `except` absorbing the raise. -/
def releaseEvs (h : Handles) (o : RunOracle) : List Ev :=
  Ev.releaseBegin :: runUntilRaise (teardownSteps h o)

/-- The observable result of a run: its event trace and the exception (if
any) that propagates to the caller of `run_agent`. -/
structure RunResult where
  events : List Ev
  outcome : Option String
  deriving DecidableEq, Repr

/-- `run_agent`: stale-state cleanup (which never raises — see
`cleanup_stale_playwright_processes`), then the `try` body, then the
`finally` teardown; the exception of the body, if any, propagates unchanged
because the `finally` block catches its own failures. -/
def run_agent (o : RunOracle) : RunResult :=
  let (aev, h, err) := acquirePhase o
  { events := Ev.cleanupStale :: (aev ++ releaseEvs h o)
    outcome := err }

/-- A tool invocation emitted by the planner. -/
structure ToolCall where
  name : String
  args : String
  deriving DecidableEq, Repr

/-- One planner reply: assistant text plus the tool invocations it requests
(an empty list is a final answer). -/
structure PlannerOut where
  text : String
  calls : List ToolCall
  deriving DecidableEq, Repr

/-- A turn of the conversation. -/
inductive Turn where
  | system (content : String)
  | user (content : String)
  | assistant (content : String) (calls : List ToolCall)
  | toolResult (content : String)
  deriving DecidableEq, Repr

/-- Terminal/loop states of the orchestration loop. -/
inductive LoopState where
  | running
  | completed
  | exhausted
  deriving DecidableEq, Repr

/-- Modelled from the spec: the react-style orchestration loop itself lives
in the `langgraph` library (`create_react_agent` / `ainvoke`), not in this
repository; `agent.py` only configures it with `recursion_limit: 100`.
Per the spec, each step sends the conversation to the planner, appends the
assistant turn, stops when the planner requests no tools, otherwise appends
one tool-result turn per requested invocation and repeats under the fuel. -/
def runLoop (planner : List Turn → PlannerOut) (execTool : ToolCall → String) :
    Nat → List Turn → LoopState × List Turn
  | 0, conv => (.exhausted, conv)
  | Nat.succ fuel, conv =>
    let out := planner conv
    let conv2 := conv ++ [Turn.assistant out.text out.calls]
    if out.calls.isEmpty then (.completed, conv2)
    else runLoop planner execTool fuel
      (conv2 ++ out.calls.map (fun c => Turn.toolResult (execTool c)))

/-- The step budget `agent.py` passes as `recursion_limit`. -/
def STEP_BUDGET : Nat := 100

/-- Modelled from the spec: the whole orchestration run — seed the
conversation with the system turn and the user task, then loop under the
step budget. -/
def orchestrate (planner : List Turn → PlannerOut) (execTool : ToolCall → String)
    (sys task : String) : LoopState × List Turn :=
  runLoop planner execTool STEP_BUDGET [Turn.system sys, Turn.user task]

/-- Number of planner turns recorded in a conversation. -/
def assistantCount (conv : List Turn) : Nat :=
  conv.countP (fun t => match t with | Turn.assistant _ _ => true | _ => false)

instance {ε α : Type} [DecidableEq ε] [DecidableEq α] : DecidableEq (Except ε α) := fun x y =>
  match x, y with
  | .ok a, .ok b =>
    if h : a = b then isTrue (h ▸ rfl) else isFalse (fun he => h (Except.ok.inj he))
  | .error a, .error b =>
    if h : a = b then isTrue (h ▸ rfl) else isFalse (fun he => h (Except.error.inj he))
  | .ok _, .error _ => isFalse (fun h => Except.noConfusion h)
  | .error _, .ok _ => isFalse (fun h => Except.noConfusion h)

/-- `r` models a normal return of some text (no exception to the caller). -/
def returnsText (r : Except String String) : Prop :=
  ∃ s, r = Except.ok s

lemma listContains_nil (l : List Char) : listContains l [] = true := by
  apply List.any_eq_true.mpr
  exact ⟨0, List.mem_range.mpr (Nat.succ_pos _), by simp [List.isPrefixOf]⟩

lemma frameMatches_empty (f : Frame) :
    frameMatches "" f = (f.name != "" || f.url != "") := by
  have h0 : lowerList (String.toList "") = [] := rfl
  have h1 : lowerList [] = [] := rfl
  simp [frameMatches, h0, h1, listContains_nil]

/-- C7: within one session the screenshot artifact path is the deterministic
function `<artifact dir>/<name>.png` of the name alone, so repeated calls
with the same name (e.g. `"01_home"`) yield the same path and overwrite. -/
theorem c7_screenshot_path_deterministic :
    (∀ dir name, get_screenshot_path dir name = dir ++ "/" ++ (name ++ ".png")) ∧
    (∀ dir, get_screenshot_path dir "01_home" = dir ++ "/" ++ "01_home.png") ∧
    (∀ (p : Page) dir,
      browser_screenshot (some p) "01_home" dir (Except.ok ()) =
        Except.ok ("Screenshot saved to " ++ get_screenshot_path dir "01_home") ∧
      browser_screenshot (some p) "01_home" dir (Except.ok ()) =
        browser_screenshot (some p) "01_home" dir (Except.ok ())) := by
  refine ⟨fun dir name => rfl, fun dir => rfl, fun p dir => ⟨rfl, rfl⟩⟩

/-- C8: the wait tool accepts exactly the integers 1..10: it rejects 0 and
11 with an error text (without sleeping) and accepts 1 and 10 with a
confirmation text; in general in-range inputs get the confirmation and
out-of-range inputs get the error text. -/
theorem c8_wait_range :
    browser_wait 0 = Except.ok "Error: seconds must be between 1 and 10" ∧
    browser_wait 11 = Except.ok "Error: seconds must be between 1 and 10" ∧
    browser_wait 1 = Except.ok "Waited 1 seconds" ∧
    browser_wait 10 = Except.ok "Waited 10 seconds" ∧
    (∀ s : Int, 1 ≤ s → s ≤ 10 →
      browser_wait s = Except.ok ("Waited " ++ toString s ++ " seconds")) ∧
    (∀ s : Int, s < 1 ∨ 10 < s →
      browser_wait s = Except.ok "Error: seconds must be between 1 and 10") := by
  refine ⟨by decide, by decide, by decide, by decide, ?_, ?_⟩
  · intro s h1 h2
    unfold browser_wait
    rw [if_neg (by omega : ¬(s < 1 ∨ s > 10))]
  · intro s h
    unfold browser_wait
    rw [if_pos (by omega : s < 1 ∨ s > 10)]

/-- Witness for C8 at the concrete in-range input 5. -/
theorem c8_wait_range_witness :
    browser_wait 5 = Except.ok ("Waited " ++ toString (5 : Int) ++ " seconds") :=
  c8_wait_range.2.2.2.2.1 5 (by decide) (by decide)

/-- C9: with the global page handle `None`, every page-touching tool raises
the `RuntimeError` of `_get_page` instead of returning a text result, while
`browser_wait` — the only tool that never accesses the page — still returns
its normal text. -/
theorem c9_uninitialized_page_raises :
    (∀ url goto, browser_navigate none url goto = Except.error initErrMsg) ∧
    (∀ sel act, browser_click none sel act = Except.error initErrMsg) ∧
    (∀ sel text act, browser_fill none sel text act = Except.error initErrMsg) ∧
    (∀ sel text act, browser_type none sel text act = Except.error initErrMsg) ∧
    (∀ key act, browser_press_key none key act = Except.error initErrMsg) ∧
    (∀ name dir act, browser_screenshot none name dir act = Except.error initErrMsg) ∧
    (∀ act, browser_get_content none act = Except.error initErrMsg) ∧
    (∀ sel act, browser_get_text none sel act = Except.error initErrMsg) ∧
    (∀ sel t act, browser_wait_for_selector none sel t act = Except.error initErrMsg) ∧
    (∀ sel act, browser_is_visible none sel act = Except.error initErrMsg) ∧
    (∀ script act, browser_evaluate none script act = Except.error initErrMsg) ∧
    (browser_list_frames none = Except.error initErrMsg) ∧
    (∀ sel gc, browser_get_frame_content none sel gc = Except.error initErrMsg) ∧
    (∀ fs es text act, browser_fill_in_frame none fs es text act = Except.error initErrMsg) ∧
    (∀ fs es act, browser_click_in_frame none fs es act = Except.error initErrMsg) ∧
    (∀ seconds : Int, ∃ s, browser_wait seconds = Except.ok s) := by
  refine ⟨fun _ _ => rfl, fun _ _ => rfl, fun _ _ _ => rfl, fun _ _ _ => rfl,
    fun _ _ => rfl, fun _ _ _ => rfl, fun _ => rfl, fun _ _ => rfl, fun _ _ _ => rfl,
    fun _ _ => rfl, fun _ _ => rfl, rfl, fun _ _ => rfl, fun _ _ _ _ => rfl,
    fun _ _ _ => rfl, ?_⟩
  intro seconds
  unfold browser_wait
  split <;> exact ⟨_, rfl⟩

lemma exceptBind_ok {α β : Type} (a : α) (f : α → Except String β) :
    (Except.ok a >>= f) = f a := rfl

/-- C4: frame resolution: (1) a reference parsing as an in-bounds
non-negative integer selects by index; (2) otherwise the frames are scanned
in order for the first case-insensitive name/URL substring match; (3)
otherwise NotFound, reported by the tool as descriptive text, never an
exception.  Concretely, on `[{name:"a",url:"u1"}, {name:"b",url:"u2"}]`,
`"1"` resolves to frame b, `"u1"` to frame a, and `"zzz"` to NotFound. -/
theorem c4_frame_resolution :
    (resolveFrame "1" [⟨"a", "u1"⟩, ⟨"b", "u2"⟩] = some ⟨"b", "u2"⟩ ∧
     resolveFrame "u1" [⟨"a", "u1"⟩, ⟨"b", "u2"⟩] = some ⟨"a", "u1"⟩ ∧
     resolveFrame "zzz" [⟨"a", "u1"⟩, ⟨"b", "u2"⟩] = none) ∧
    (∀ ref frames (i : Int), pyParseInt ref = some i → 0 ≤ i →
      i < (frames.length : Int) → resolveFrame ref frames = frames[i.toNat]?) ∧
    (∀ ref frames, (∀ i : Int, pyParseInt ref = some i → i < 0 ∨ (frames.length : Int) ≤ i) →
      resolveFrame ref frames = frames.find? (frameMatches ref)) ∧
    (∀ (p : Page) sel gc, resolveFrame sel p.frames = none →
      browser_get_frame_content (some p) sel gc = Except.ok (frameNotFoundMsg sel)) := by
  refine ⟨⟨by decide, by decide, by decide⟩, ?_, ?_, ?_⟩
  · intro ref frames i hp h0 hlt
    have hc : 0 ≤ i ∧ i < (frames.length : Int) := ⟨h0, hlt⟩
    have hb : i.toNat < frames.length := by omega
    obtain ⟨f, hf⟩ : ∃ f, frames[i.toNat]? = some f :=
      ⟨frames[i.toNat], List.getElem?_eq_getElem hb⟩
    simp only [resolveFrame, hp, if_pos hc, hf]
  · intro ref frames hOut
    cases hp : pyParseInt ref with
    | none =>
      unfold resolveFrame
      rw [hp]
    | some i =>
      have hx := hOut i hp
      have hc : ¬(0 ≤ i ∧ i < (frames.length : Int)) := by omega
      simp only [resolveFrame, hp, if_neg hc]
  · intro p sel gc h
    simp [browser_get_frame_content, getPage, exceptBind_ok, h]

/-- Witness for C4 index resolution at the concrete input `"1"`. -/
theorem c4_frame_resolution_witness :
    resolveFrame "1" [⟨"a", "u1"⟩, ⟨"b", "u2"⟩] =
      ([⟨"a", "u1"⟩, ⟨"b", "u2"⟩] : List Frame)[(1 : Int).toNat]? :=
  c4_frame_resolution.2.1 "1" [⟨"a", "u1"⟩, ⟨"b", "u2"⟩] 1 (by decide) (by decide) (by decide)

/-- C10: for the empty frame reference, resolution never reports NotFound on
a frame list containing a frame with a non-empty name or URL: the empty
string is a substring of every string, so the scan returns the first frame
with a non-empty name or a non-empty URL. -/
theorem c10_empty_frame_ref :
    ∀ frames : List Frame, (∃ f ∈ frames, f.name ≠ "" ∨ f.url ≠ "") →
      resolveFrame "" frames = frames.find? (fun f => f.name != "" || f.url != "") ∧
      ∃ f, resolveFrame "" frames = some f := by
  intro frames hex
  have h1 : resolveFrame "" frames = frames.find? (frameMatches "") := by
    unfold resolveFrame
    rw [show pyParseInt "" = none from rfl]
  have h2 : frameMatches "" = fun f => (f.name != "" || f.url != "") := by
    funext f
    rw [frameMatches_empty]
  refine ⟨by rw [h1, h2], ?_⟩
  rw [h1, h2]
  obtain ⟨f, hmem, hor⟩ := hex
  have hs : (frames.find? (fun f => f.name != "" || f.url != "")).isSome := by
    rw [List.find?_isSome]
    exact ⟨f, hmem, by rcases hor with h | h <;> simp [h]⟩
  exact Option.isSome_iff_exists.mp hs

/-- Witness for C10 at a concrete single-frame list. -/
theorem c10_empty_frame_ref_witness :
    resolveFrame "" [⟨"a", "u1"⟩] =
      ([⟨"a", "u1"⟩] : List Frame).find? (fun f => f.name != "" || f.url != "") :=
  (c10_empty_frame_ref [⟨"a", "u1"⟩] ⟨⟨"a", "u1"⟩, by decide, by decide⟩).1

lemma listContains_decomp (a n b : List Char) : listContains (a ++ n ++ b) n = true := by
  apply List.any_eq_true.mpr
  refine ⟨a.length, List.mem_range.mpr (by simp [List.length_append]; omega), ?_⟩
  show n.isPrefixOf ((a ++ n ++ b).drop a.length) = true
  rw [List.append_assoc, List.drop_left]
  exact List.isPrefixOf_iff_prefix.mpr (List.prefix_append n b)

lemma strContains_mid (x y z : String) : listContains (x ++ y ++ z).data y.data = true := by
  have h : (x ++ y ++ z).data = x.data ++ y.data ++ z.data := by
    rw [String.data_append, String.data_append]
  rw [h]
  exact listContains_decomp x.data y.data z.data

lemma strContains_suffix (x y : String) : listContains (x ++ y).data y.data = true := by
  have h := strContains_mid x y ""
  rwa [String.append_empty] at h

lemma mentions_of_eq (x z : String) {msg y : String} (h : msg = x ++ y ++ z) :
    listContains msg.data y.data = true := by
  rw [h]
  exact strContains_mid x y z

/-- The tool call returned normally with a text that names both the given
argument and the given cause as substrings. -/
def failureNames (r : Except String String) (arg cause : String) : Prop :=
  ∃ msg, r = Except.ok msg ∧
    listContains msg.data arg.data = true ∧ listContains msg.data cause.data = true

/-- The tool call returned normally with a text naming the given cause. -/
def failureNamesCause (r : Except String String) (cause : String) : Prop :=
  ∃ msg, r = Except.ok msg ∧ listContains msg.data cause.data = true

/-- Counterexample for C1 as stated: (1) with the page handle `None`,
`browser_navigate` raises (`Except.error`) instead of returning text; (2)
with the page initialized, `browser_is_visible` converts an internal
failure to `"false"`, which names neither the selector nor the cause; (3)
the failure text of `browser_evaluate` does not name the failing script. -/
theorem c1_counterexample :
    browser_navigate none "https://example.com" (Except.error "timeout") =
      Except.error initErrMsg ∧
    (browser_is_visible (some ⟨"u", [], 0⟩) "#submit" (Except.error "timeout") =
        Except.ok "false" ∧
      listContains "false".data "#submit".data = false ∧
      listContains "false".data "timeout".data = false) ∧
    (browser_evaluate (some ⟨"u", [], 0⟩) "document.title" (Except.error "boom") =
        Except.ok ("Failed to evaluate JavaScript: " ++ "boom") ∧
      listContains ("Failed to evaluate JavaScript: " ++ "boom").data
        "document.title".data = false) := by
  refine ⟨by decide, ⟨by decide, by decide, by decide⟩, ⟨by decide, by decide⟩⟩

/-- C1 (amended): for every browser tool invoked while the session page is
initialized, the call returns a string result and never raises, even when
the targeted element, frame, or script is invalid; failures of the
underlying page action are converted to human-readable error text naming
the failing selector/argument and the underlying cause for the
selector/argument-targeted tools, naming the cause (but not the argument)
for `get_content` and `evaluate`, and converted to the result `"false"`
for `is_visible`.  (When the page is not initialized, page-touching tools
raise instead — see C9.) -/
theorem c1_tools_always_return_text :
    ((∀ p url goto, returnsText (browser_navigate (some p) url goto)) ∧
     (∀ p sel act, returnsText (browser_click (some p) sel act)) ∧
     (∀ p sel text act, returnsText (browser_fill (some p) sel text act)) ∧
     (∀ p sel text act, returnsText (browser_type (some p) sel text act)) ∧
     (∀ p key act, returnsText (browser_press_key (some p) key act)) ∧
     (∀ p name dir act, returnsText (browser_screenshot (some p) name dir act)) ∧
     (∀ p act, returnsText (browser_get_content (some p) act)) ∧
     (∀ p sel act, returnsText (browser_get_text (some p) sel act)) ∧
     (∀ p sel t act, returnsText (browser_wait_for_selector (some p) sel t act)) ∧
     (∀ s, returnsText (browser_wait s)) ∧
     (∀ p sel act, returnsText (browser_is_visible (some p) sel act)) ∧
     (∀ p script act, returnsText (browser_evaluate (some p) script act)) ∧
     (∀ p, returnsText (browser_list_frames (some p))) ∧
     (∀ p fs gc, returnsText (browser_get_frame_content (some p) fs gc)) ∧
     (∀ p fs es text act, returnsText (browser_fill_in_frame (some p) fs es text act)) ∧
     (∀ p fs es act, returnsText (browser_click_in_frame (some p) fs es act))) ∧
    ((∀ p url e, failureNames (browser_navigate (some p) url (Except.error e)) url e) ∧
     (∀ p sel e, failureNames (browser_click (some p) sel (Except.error e)) sel e) ∧
     (∀ p sel text e, failureNames (browser_fill (some p) sel text (Except.error e)) sel e) ∧
     (∀ p sel text e, failureNames (browser_type (some p) sel text (Except.error e)) sel e) ∧
     (∀ p key e, failureNames (browser_press_key (some p) key (Except.error e)) key e) ∧
     (∀ p name dir e, failureNames (browser_screenshot (some p) name dir (Except.error e)) name e) ∧
     (∀ p sel e, failureNames (browser_get_text (some p) sel (Except.error e)) sel e) ∧
     (∀ p sel t e, failureNames (browser_wait_for_selector (some p) sel t (Except.error e)) sel e) ∧
     (∀ p e, failureNamesCause (browser_get_content (some p) (Except.error e)) e) ∧
     (∀ p script e, failureNamesCause (browser_evaluate (some p) script (Except.error e)) e) ∧
     (∀ p fs e, resolveFrame fs p.frames = none →
       failureNamesCause (browser_get_frame_content (some p) fs (fun _ => Except.error e)) fs) ∧
     (∀ p fs fr e, resolveFrame fs p.frames = some fr →
       failureNames (browser_get_frame_content (some p) fs (fun _ => Except.error e)) fs e) ∧
     (∀ p fs es text fr e, resolveFrame fs p.frames = some fr →
       failureNames (browser_fill_in_frame (some p) fs es text (fun _ => Except.error e)) es e ∧
       failureNames (browser_fill_in_frame (some p) fs es text (fun _ => Except.error e)) fs e) ∧
     (∀ p fs es fr e, resolveFrame fs p.frames = some fr →
       failureNames (browser_click_in_frame (some p) fs es (fun _ => Except.error e)) es e ∧
       failureNames (browser_click_in_frame (some p) fs es (fun _ => Except.error e)) fs e)) ∧
    (∀ p sel e, browser_is_visible (some p) sel (Except.error e) = Except.ok "false") := by
  refine ⟨⟨?_, ?_, ?_, ?_, ?_, ?_, ?_, ?_, ?_, ?_, ?_, ?_, ?_, ?_, ?_, ?_⟩,
    ⟨?_, ?_, ?_, ?_, ?_, ?_, ?_, ?_, ?_, ?_, ?_, ?_, ?_, ?_⟩, fun p sel e => rfl⟩
  · intro p url goto; cases goto <;> exact ⟨_, rfl⟩
  · intro p sel act; cases act <;> exact ⟨_, rfl⟩
  · intro p sel text act; cases act <;> exact ⟨_, rfl⟩
  · intro p sel text act; cases act <;> exact ⟨_, rfl⟩
  · intro p key act; cases act <;> exact ⟨_, rfl⟩
  · intro p name dir act; cases act <;> exact ⟨_, rfl⟩
  · intro p act; cases act <;> exact ⟨_, rfl⟩
  · intro p sel act; cases act <;> exact ⟨_, rfl⟩
  · intro p sel t act; cases act <;> exact ⟨_, rfl⟩
  · intro s; unfold browser_wait; split <;> exact ⟨_, rfl⟩
  · intro p sel act; cases act <;> exact ⟨_, rfl⟩
  · intro p script act; cases act <;> exact ⟨_, rfl⟩
  · intro p
    by_cases h : p.frames = []
    · exact ⟨"No frames found", by simp [browser_list_frames, getPage, exceptBind_ok, h]⟩
    · exact ⟨String.intercalate "\n" (p.frames.enum.map (fun x => frameLine p.mainFrame x.1 x.2)),
        by simp [browser_list_frames, getPage, exceptBind_ok, h]⟩
  · intro p fs gc
    cases h : resolveFrame fs p.frames with
    | none =>
      exact ⟨frameNotFoundMsg fs, by simp [browser_get_frame_content, getPage, exceptBind_ok, h]⟩
    | some fr =>
      cases hg : gc fr with
      | ok c =>
        exact ⟨c.take 5000, by simp [browser_get_frame_content, getPage, exceptBind_ok, h, hg]⟩
      | error e =>
        exact ⟨"Failed to get frame content " ++ qm ++ fs ++ qm ++ ": " ++ e,
          by simp [browser_get_frame_content, getPage, exceptBind_ok, h, hg]⟩
  · intro p fs es text act
    cases h : resolveFrame fs p.frames with
    | none =>
      exact ⟨frameNotFoundMsg fs, by simp [browser_fill_in_frame, getPage, exceptBind_ok, h]⟩
    | some fr =>
      cases hg : act fr with
      | ok c =>
        exact ⟨"Successfully filled element " ++ qm ++ es ++ qm ++ " in frame " ++ qm ++ fs ++ qm,
          by simp [browser_fill_in_frame, getPage, exceptBind_ok, h, hg]⟩
      | error e =>
        exact ⟨"Failed to fill element " ++ qm ++ es ++ qm ++ " in frame " ++ qm ++ fs ++ qm ++
            ": " ++ e,
          by simp [browser_fill_in_frame, getPage, exceptBind_ok, h, hg]⟩
  · intro p fs es act
    cases h : resolveFrame fs p.frames with
    | none =>
      exact ⟨frameNotFoundMsg fs, by simp [browser_click_in_frame, getPage, exceptBind_ok, h]⟩
    | some fr =>
      cases hg : act fr with
      | ok c =>
        exact ⟨"Successfully clicked element " ++ qm ++ es ++ qm ++ " in frame " ++ qm ++ fs ++ qm,
          by simp [browser_click_in_frame, getPage, exceptBind_ok, h, hg]⟩
      | error e =>
        exact ⟨"Failed to click element " ++ qm ++ es ++ qm ++ " in frame " ++ qm ++ fs ++ qm ++
            ": " ++ e,
          by simp [browser_click_in_frame, getPage, exceptBind_ok, h, hg]⟩
  · intro p url e
    refine ⟨_, rfl, ?_, ?_⟩
    · exact mentions_of_eq ("Failed to navigate to " ++ qm) (qm ++ ": " ++ e)
        (by simp [String.append_assoc])
    · exact strContains_suffix ("Failed to navigate to " ++ qm ++ url ++ qm ++ ": ") e
  · intro p sel e
    refine ⟨_, rfl, ?_, ?_⟩
    · exact mentions_of_eq ("Failed to click element " ++ qm) (qm ++ ": " ++ e)
        (by simp [String.append_assoc])
    · exact strContains_suffix ("Failed to click element " ++ qm ++ sel ++ qm ++ ": ") e
  · intro p sel text e
    refine ⟨_, rfl, ?_, ?_⟩
    · exact mentions_of_eq ("Failed to fill element " ++ qm) (qm ++ ": " ++ e)
        (by simp [String.append_assoc])
    · exact strContains_suffix ("Failed to fill element " ++ qm ++ sel ++ qm ++ ": ") e
  · intro p sel text e
    refine ⟨_, rfl, ?_, ?_⟩
    · exact mentions_of_eq ("Failed to type into element " ++ qm) (qm ++ ": " ++ e)
        (by simp [String.append_assoc])
    · exact strContains_suffix ("Failed to type into element " ++ qm ++ sel ++ qm ++ ": ") e
  · intro p key e
    refine ⟨_, rfl, ?_, ?_⟩
    · exact mentions_of_eq ("Failed to press key " ++ qm) (qm ++ ": " ++ e)
        (by simp [String.append_assoc])
    · exact strContains_suffix ("Failed to press key " ++ qm ++ key ++ qm ++ ": ") e
  · intro p name dir e
    refine ⟨_, rfl, ?_, ?_⟩
    · exact mentions_of_eq ("Failed to take screenshot " ++ qm) (qm ++ ": " ++ e)
        (by simp [String.append_assoc])
    · exact strContains_suffix ("Failed to take screenshot " ++ qm ++ name ++ qm ++ ": ") e
  · intro p sel e
    refine ⟨_, rfl, ?_, ?_⟩
    · exact mentions_of_eq ("Failed to get text from element " ++ qm) (qm ++ ": " ++ e)
        (by simp [String.append_assoc])
    · exact strContains_suffix ("Failed to get text from element " ++ qm ++ sel ++ qm ++ ": ") e
  · intro p sel t e
    refine ⟨_, rfl, ?_, ?_⟩
    · exact mentions_of_eq ("Failed to find element " ++ qm)
        (qm ++ " within " ++ toString t ++ "ms: " ++ e) (by simp [String.append_assoc])
    · exact strContains_suffix
        ("Failed to find element " ++ qm ++ sel ++ qm ++ " within " ++ toString t ++ "ms: ") e
  · intro p e
    exact ⟨_, rfl, strContains_suffix "Failed to get page content: " e⟩
  · intro p script e
    exact ⟨_, rfl, strContains_suffix "Failed to evaluate JavaScript: " e⟩
  · intro p fs e h
    refine ⟨frameNotFoundMsg fs,
      by simp [browser_get_frame_content, getPage, exceptBind_ok, h], ?_⟩
    exact mentions_of_eq ("Frame not found: " ++ qm)
      (qm ++ ". Use browser_list_frames to see available frames.")
      (by simp [frameNotFoundMsg, String.append_assoc])
  · intro p fs fr e h
    refine ⟨"Failed to get frame content " ++ qm ++ fs ++ qm ++ ": " ++ e,
      by simp [browser_get_frame_content, getPage, exceptBind_ok, h], ?_, ?_⟩
    · exact mentions_of_eq ("Failed to get frame content " ++ qm) (qm ++ ": " ++ e)
        (by simp [String.append_assoc])
    · exact strContains_suffix ("Failed to get frame content " ++ qm ++ fs ++ qm ++ ": ") e
  · intro p fs es text fr e h
    constructor
    · refine ⟨"Failed to fill element " ++ qm ++ es ++ qm ++ " in frame " ++ qm ++ fs ++ qm ++
          ": " ++ e,
        by simp [browser_fill_in_frame, getPage, exceptBind_ok, h], ?_, ?_⟩
      · exact mentions_of_eq ("Failed to fill element " ++ qm)
          (qm ++ " in frame " ++ qm ++ fs ++ qm ++ ": " ++ e) (by simp [String.append_assoc])
      · exact strContains_suffix
          ("Failed to fill element " ++ qm ++ es ++ qm ++ " in frame " ++ qm ++ fs ++ qm ++ ": ") e
    · refine ⟨"Failed to fill element " ++ qm ++ es ++ qm ++ " in frame " ++ qm ++ fs ++ qm ++
          ": " ++ e,
        by simp [browser_fill_in_frame, getPage, exceptBind_ok, h], ?_, ?_⟩
      · exact mentions_of_eq ("Failed to fill element " ++ qm ++ es ++ qm ++ " in frame " ++ qm)
          (qm ++ ": " ++ e) (by simp [String.append_assoc])
      · exact strContains_suffix
          ("Failed to fill element " ++ qm ++ es ++ qm ++ " in frame " ++ qm ++ fs ++ qm ++ ": ") e
  · intro p fs es fr e h
    constructor
    · refine ⟨"Failed to click element " ++ qm ++ es ++ qm ++ " in frame " ++ qm ++ fs ++ qm ++
          ": " ++ e,
        by simp [browser_click_in_frame, getPage, exceptBind_ok, h], ?_, ?_⟩
      · exact mentions_of_eq ("Failed to click element " ++ qm)
          (qm ++ " in frame " ++ qm ++ fs ++ qm ++ ": " ++ e) (by simp [String.append_assoc])
      · exact strContains_suffix
          ("Failed to click element " ++ qm ++ es ++ qm ++ " in frame " ++ qm ++ fs ++ qm ++ ": ") e
    · refine ⟨"Failed to click element " ++ qm ++ es ++ qm ++ " in frame " ++ qm ++ fs ++ qm ++
          ": " ++ e,
        by simp [browser_click_in_frame, getPage, exceptBind_ok, h], ?_, ?_⟩
      · exact mentions_of_eq ("Failed to click element " ++ qm ++ es ++ qm ++ " in frame " ++ qm)
          (qm ++ ": " ++ e) (by simp [String.append_assoc])
      · exact strContains_suffix
          ("Failed to click element " ++ qm ++ es ++ qm ++ " in frame " ++ qm ++ fs ++ qm ++ ": ") e

/-- Witness for C1 (amended) at a concrete resolved frame. -/
theorem c1_tools_always_return_text_witness :
    failureNames
      (browser_get_frame_content (some ⟨"u", [⟨"a", "u1"⟩], 0⟩) "a"
        (fun _ => Except.error "boom")) "a" "boom" :=
  c1_tools_always_return_text.2.1.2.2.2.2.2.2.2.2.2.2.2.1
    ⟨"u", [⟨"a", "u1"⟩], 0⟩ "a" ⟨"a", "u1"⟩ "boom" (by decide)

lemma mem_runUntilRaise {e : Ev} : ∀ {l : List (Ev × Bool)},
    e ∈ runUntilRaise l → e ∈ l.map Prod.fst := by
  intro l
  induction l with
  | nil => intro h; exact absurd h (List.not_mem_nil e)
  | cons hd tl ih =>
    intro h
    rw [runUntilRaise] at h
    by_cases hf : hd.2
    · rcases hd with ⟨ev, f⟩
      simp only at hf
      rw [hf] at h
      simp only [if_pos rfl] at h
      simp [List.mem_singleton.mp h]
    · rcases hd with ⟨ev, f⟩
      simp only at hf
      rw [Bool.not_eq_true] at hf
      rw [hf] at h
      simp only [Bool.false_eq_true, if_neg] at h
      rcases List.mem_cons.mp h with h1 | h1
      · simp [h1]
      · exact List.mem_cons.mpr (Or.inr (ih h1))

lemma runUntilRaise_isPrefix : ∀ l : List (Ev × Bool),
    runUntilRaise l <+: l.map Prod.fst := by
  intro l
  induction l with
  | nil => exact List.prefix_refl _
  | cons hd tl ih =>
    rcases hd with ⟨ev, f⟩
    cases f with
    | true =>
      refine ⟨tl.map Prod.fst, ?_⟩
      rw [runUntilRaise]
      simp
    | false =>
      rw [runUntilRaise]
      simp only [Bool.false_eq_true, if_neg]
      exact List.cons_prefix_cons.mpr ⟨rfl, ih⟩

lemma runUntilRaise_of_noRaise : ∀ l : List (Ev × Bool),
    (∀ p ∈ l, p.2 = false) → runUntilRaise l = l.map Prod.fst := by
  intro l
  induction l with
  | nil => intro _; rfl
  | cons hd tl ih =>
    intro h
    rcases hd with ⟨ev, f⟩
    have hf : f = false := h (ev, f) (List.mem_cons_self _ _)
    rw [runUntilRaise, hf]
    simp only [Bool.false_eq_true, if_neg]
    rw [ih (fun p hp => h p (List.mem_cons.mpr (Or.inr hp)))]
    rfl

/-- C6: stale-state recovery never raises for any environment state (every
fallible call inside it is wrapped in a logging `try`/`except`), and in
every run it executes before any browser resource is acquired (it is the
first event of the run trace, before `startPW`/`launchBrowser`). -/
theorem c6_stale_recovery_first_and_total :
    (∀ o : CleanupOracle, ∃ t, cleanup_stale_playwright_processes o = Except.ok t) ∧
    (∀ o : RunOracle, (run_agent o).events.head? = some Ev.cleanupStale) := by
  constructor
  · intro o
    exact ⟨_, rfl⟩
  · intro o
    rcases hE : acquirePhase o with ⟨aev, h, err⟩
    simp [run_agent, hE]

/-- C3: session teardown (the `finally` block releasing page, context,
browser, driver) runs exactly once per `run_agent` run, whether the run
returns normally or an exception escapes at any point after resource
acquisition begins. -/
theorem c3_release_exactly_once :
    ∀ o : RunOracle, ((run_agent o).events.count Ev.releaseBegin) = 1 := by
  intro o
  have hnot0 : Ev.releaseBegin ∉ (acquirePhase o).1 := by
    unfold acquirePhase
    split_ifs <;> decide
  rcases hE : acquirePhase o with ⟨aev, h, err⟩
  rw [hE] at hnot0
  have hrel : Ev.releaseBegin ∉ runUntilRaise (teardownSteps h o) := by
    intro hmem
    have := mem_runUntilRaise hmem
    rcases h with ⟨pw, br, cx, pg⟩
    cases pw <;> cases br <;> cases cx <;> cases pg <;> simp [teardownSteps] at this
  simp only [run_agent, hE, releaseEvs]
  rw [List.count_cons_of_ne (by decide), List.count_append,
    List.count_eq_zero.mpr hnot0, List.count_cons_self,
    List.count_eq_zero.mpr hrel]

/-- A run whose acquisition and agent phases all succeed but whose
`page.close()` raises during teardown. -/
def pageCloseFailOracle : RunOracle :=
  ⟨false, false, false, false, false, true, false, false, false⟩

/-- Counterexample for C2 as stated: in a run where the browser was
launched, the failing `page.close()` aborts the rest of the single
`try`-wrapped teardown sequence, so the browser is never closed and the
driver never stopped — a failure to close the page does prevent the
browser process from being terminated (the failure itself is still not
propagated: the outcome of the run is unchanged). -/
theorem c2_counterexample :
    Ev.launchBrowser ∈ (run_agent pageCloseFailOracle).events ∧
    Ev.closePage ∈ (run_agent pageCloseFailOracle).events ∧
    Ev.closeBrowser ∉ (run_agent pageCloseFailOracle).events ∧
    Ev.stopPW ∉ (run_agent pageCloseFailOracle).events ∧
    (run_agent pageCloseFailOracle).outcome = none := by
  decide

/-- C2 (amended): session release attempts to close the page, then the
context, then the browser, then stop the driver, in that order, inside a
single `try`/`except` whose failure is logged and never propagated to the
caller; but a failure at any step aborts the remaining steps, so a failure
to close the page does prevent the browser from being terminated by the
release path.  When no teardown step fails, every acquired handle is
released in order. -/
theorem c2_release_order :
    ∀ o : RunOracle,
      (run_agent o).outcome = (acquirePhase o).2.2 ∧
      List.Sublist (runUntilRaise (teardownSteps (acquirePhase o).2.1 o))
        [Ev.closePage, Ev.closeContext, Ev.closeBrowser, Ev.stopPW] ∧
      (o.closePageFail = false → o.closeContextFail = false →
        o.closeBrowserFail = false → o.stopFail = false →
        runUntilRaise (teardownSteps (acquirePhase o).2.1 o) =
          (teardownSteps (acquirePhase o).2.1 o).map Prod.fst) ∧
      (o.startFail = false → o.launchFail = false → o.contextFail = false →
        o.pageFail = false → o.closePageFail = false → o.closeContextFail = false →
        o.closeBrowserFail = false → o.stopFail = false →
        (run_agent o).events =
          [Ev.cleanupStale, Ev.startPW, Ev.launchBrowser, Ev.newContext, Ev.newPage,
           Ev.invokeAgent, Ev.releaseBegin, Ev.closePage, Ev.closeContext,
           Ev.closeBrowser, Ev.stopPW]) := by
  intro o
  refine ⟨?_, ?_, ?_, ?_⟩
  · rcases hE : acquirePhase o with ⟨aev, h, err⟩
    simp [run_agent, hE]
  · refine (runUntilRaise_isPrefix _).sublist.trans ?_
    rcases (acquirePhase o).2.1 with ⟨pw, br, cx, pg⟩
    cases pw <;> cases br <;> cases cx <;> cases pg <;> simp [teardownSteps]
  · intro h1 h2 h3 h4
    apply runUntilRaise_of_noRaise
    intro p hp
    rcases (acquirePhase o).2.1 with ⟨pw, br, cx, pg⟩
    cases pw <;> cases br <;> cases cx <;> cases pg <;>
      simp [teardownSteps] at hp <;>
      rcases hp with hp | hp | hp | hp <;> simp_all
  · intro h1 h2 h3 h4 h5 h6 h7 h8
    rcases o with ⟨s, l, c, pg, a, cp, cc, cb, st⟩
    simp only at h1 h2 h3 h4 h5 h6 h7 h8
    subst h1; subst h2; subst h3; subst h4; subst h5; subst h6; subst h7; subst h8
    cases a <;> decide

/-- Witness for C2 (amended) at the all-successful oracle. -/
theorem c2_release_order_witness :
    (run_agent ⟨false, false, false, false, false, false, false, false, false⟩).events =
      [Ev.cleanupStale, Ev.startPW, Ev.launchBrowser, Ev.newContext, Ev.newPage,
       Ev.invokeAgent, Ev.releaseBegin, Ev.closePage, Ev.closeContext,
       Ev.closeBrowser, Ev.stopPW] :=
  (c2_release_order ⟨false, false, false, false, false, false, false, false, false⟩).2.2.2
    rfl rfl rfl rfl rfl rfl rfl rfl

lemma runLoop_not_running (planner : List Turn → PlannerOut) (execTool : ToolCall → String) :
    ∀ (fuel : Nat) (conv : List Turn), (runLoop planner execTool fuel conv).1 ≠ .running := by
  intro fuel
  induction fuel with
  | zero => intro conv h; exact LoopState.noConfusion h
  | succ n ih =>
    intro conv
    rw [runLoop]
    by_cases h : (planner conv).calls.isEmpty
    · rw [if_pos h]
      intro hc
      exact LoopState.noConfusion hc
    · rw [if_neg h]
      exact ih _

lemma assistantCount_append (a b : List Turn) :
    assistantCount (a ++ b) = assistantCount a + assistantCount b :=
  List.countP_append _ _ _

lemma assistantCount_toolResults (execTool : ToolCall → String) (calls : List ToolCall) :
    assistantCount (calls.map (fun c => Turn.toolResult (execTool c))) = 0 := by
  rw [assistantCount, List.countP_eq_zero]
  intro t ht
  rcases List.mem_map.mp ht with ⟨c, _, hc⟩
  rw [← hc]
  simp

lemma runLoop_assistantCount (planner : List Turn → PlannerOut) (execTool : ToolCall → String) :
    ∀ (fuel : Nat) (conv : List Turn),
      assistantCount (runLoop planner execTool fuel conv).2 ≤ assistantCount conv + fuel := by
  intro fuel
  induction fuel with
  | zero => intro conv; rw [runLoop]; simp
  | succ n ih =>
    intro conv
    rw [runLoop]
    by_cases h : (planner conv).calls.isEmpty
    · rw [if_pos h]
      rw [assistantCount_append]
      have h1 : assistantCount [Turn.assistant (planner conv).text (planner conv).calls] = 1 := rfl
      omega
    · rw [if_neg h]
      have := ih (conv ++ [Turn.assistant (planner conv).text (planner conv).calls] ++
        (planner conv).calls.map (fun c => Turn.toolResult (execTool c)))
      rw [assistantCount_append, assistantCount_append,
        assistantCount_toolResults] at this
      have h1 : assistantCount [Turn.assistant (planner conv).text (planner conv).calls] = 1 := rfl
      omega

lemma runLoop_length (planner : List Turn → PlannerOut) (execTool : ToolCall → String)
    (k : Nat) (hk : ∀ c, ((planner c).calls).length ≤ k) :
    ∀ (fuel : Nat) (conv : List Turn),
      (runLoop planner execTool fuel conv).2.length ≤ conv.length + fuel * (1 + k) := by
  intro fuel
  induction fuel with
  | zero => intro conv; rw [runLoop]; simp
  | succ n ih =>
    intro conv
    rw [runLoop]
    by_cases h : (planner conv).calls.isEmpty
    · rw [if_pos h]
      simp only [List.length_append, List.length_cons, List.length_nil]
      have : (n + 1) * (1 + k) = n * (1 + k) + (1 + k) := by ring
      omega
    · rw [if_neg h]
      have := ih (conv ++ [Turn.assistant (planner conv).text (planner conv).calls] ++
        (planner conv).calls.map (fun c => Turn.toolResult (execTool c)))
      have hlen : ((planner conv).calls.map (fun c => Turn.toolResult (execTool c))).length ≤ k := by
        rw [List.length_map]
        exact hk conv
      simp only [List.length_append, List.length_cons, List.length_nil] at this ⊢
      have hmul : (n + 1) * (1 + k) = n * (1 + k) + (1 + k) := by ring
      omega

lemma runLoop_silent_completed (planner : List Turn → PlannerOut)
    (execTool : ToolCall → String) (hsilent : ∀ c, (planner c).calls = []) :
    ∀ (fuel : Nat) (conv : List Turn), 0 < fuel →
      (runLoop planner execTool fuel conv).1 = .completed := by
  intro fuel
  cases fuel with
  | zero => intro conv h; exact absurd h (by omega)
  | succ n =>
    intro conv _
    rw [runLoop, if_pos (by rw [hsilent conv]; rfl)]

/-- C5: for every planner and tool executor, the orchestration loop ends in
`completed` (planner emitted no tool invocations) or `exhausted` (budget
spent), never more than `STEP_BUDGET = 100` planner turns occur, the
conversation stays bounded by the budget (given a bound on invocations per
turn), and a planner that stops requesting tools completes. -/
theorem c5_loop_terminates_within_budget :
    ∀ (planner : List Turn → PlannerOut) (execTool : ToolCall → String) (sys task : String),
      ((orchestrate planner execTool sys task).1 = .completed ∨
        (orchestrate planner execTool sys task).1 = .exhausted) ∧
      assistantCount (orchestrate planner execTool sys task).2 ≤ STEP_BUDGET ∧
      (∀ k, (∀ c, ((planner c).calls).length ≤ k) →
        (orchestrate planner execTool sys task).2.length ≤ 2 + STEP_BUDGET * (1 + k)) ∧
      ((∀ c, (planner c).calls = []) →
        (orchestrate planner execTool sys task).1 = .completed) := by
  intro planner execTool sys task
  refine ⟨?_, ?_, ?_, ?_⟩
  · have := runLoop_not_running planner execTool STEP_BUDGET [Turn.system sys, Turn.user task]
    rcases hs : (orchestrate planner execTool sys task).1 with _ | _ | _
    · exact absurd hs this
    · exact Or.inl rfl
    · exact Or.inr rfl
  · have := runLoop_assistantCount planner execTool STEP_BUDGET [Turn.system sys, Turn.user task]
    have h0 : assistantCount [Turn.system sys, Turn.user task] = 0 := rfl
    rw [h0] at this
    simpa [orchestrate] using this
  · intro k hk
    have := runLoop_length planner execTool k hk STEP_BUDGET [Turn.system sys, Turn.user task]
    simpa [orchestrate] using this
  · intro hsilent
    exact runLoop_silent_completed planner execTool hsilent STEP_BUDGET _ (by decide)

/-- Witness for C5 with the planner that immediately emits a final answer. -/
theorem c5_loop_terminates_within_budget_witness :
    (orchestrate (fun _ => ⟨"done", []⟩) (fun _ => "ok") "sys" "task").1 =
      LoopState.completed :=
  (c5_loop_terminates_within_budget (fun _ => ⟨"done", []⟩) (fun _ => "ok") "sys" "task").2.2.2
    (fun _ => rfl)
